import Mathlib

/-!
Verification of the Carbide `hello` example library
(src/examples/hello/src/hello.c) against its specification.

C strings are modelled as `List Char` (a C string never contains an
interior NUL, so the list is exactly the sequence of characters before
the terminator).  The thread-local error channel is an explicit state
record threaded through every operation.  Nullable pointers are
`Option` values; a heap allocation that can fail is modelled by a
`Bool` oracle argument saying whether that particular `malloc` call
succeeds.
-/

namespace Hello

/-- ERROR_BUFFER_SIZE from hello.c line 19. -/
def ERROR_BUFFER_SIZE : Nat := 1024

/-- MAX_NAME_LENGTH from hello.c line 20. -/
def MAX_NAME_LENGTH : Nat := 256

/-- MAX_GREETING_LENGTH from hello.c line 21 (defined but never used by
any function in hello.c). -/
def MAX_GREETING_LENGTH : Nat := 64

/-- The thread-local error state: `g_error_buffer` and `g_has_error`
(hello.c lines 37-38). -/
structure ErrorChannel where
  message : List Char
  has_error : Bool
deriving DecidableEq, Repr

/-- The initial thread-local state: empty buffer, no error. -/
def initChannel : ErrorChannel := ⟨[], false⟩

/-- hello_set_error (hello.c lines 40-47): vsnprintf renders the message
into the 1024-byte buffer, so at most 1023 characters are kept, and the
flag is set. -/
def hello_set_error (msg : List Char) (_ch : ErrorChannel) : ErrorChannel :=
  { message := msg.take (ERROR_BUFFER_SIZE - 1), has_error := true }

/-- hello_get_last_error (hello.c lines 49-51). -/
def hello_get_last_error (ch : ErrorChannel) : List Char :=
  if ch.has_error then ch.message else []

/-- hello_has_error (hello.c lines 53-55). -/
def hello_has_error (ch : ErrorChannel) : Bool :=
  ch.has_error

/-- hello_clear_error (hello.c lines 57-60): clears the flag and writes
a NUL at position 0, so the stored C string becomes empty. -/
def hello_clear_error (_ch : ErrorChannel) : ErrorChannel :=
  { message := [], has_error := false }

/-- struct Hello_Greeter (hello.c lines 27-31). -/
structure Hello_Greeter where
  name : List Char
  greeting : List Char
  uppercase : Bool
deriving DecidableEq, Repr

/-- Hello_GreeterConfig: the public configuration with optional (nullable)
name and greeting pointers and an uppercase flag. -/
structure Hello_GreeterConfig where
  name : Option (List Char)
  greeting : Option (List Char)
  uppercase : Bool
deriving DecidableEq, Repr

/-- Modelled from the spec: the macro HELLO_GREETER_CONFIG_DEFAULT lives
in the header hello/hello.h, which is not part of the provided sources.
Spec section 4.2: defaults are applied field-by-field when a field is
omitted, an omitted field being a null/absent pointer, and the default
uppercase is false; so the default configuration leaves every pointer
field absent and the flag false. -/
def HELLO_GREETER_CONFIG_DEFAULT : Hello_GreeterConfig :=
  ⟨none, none, false⟩

/-- The message "Failed to allocate string of length %zu" rendered for a
given length (hello.c line 75). -/
def allocStringMsg (len : Nat) : List Char :=
  ("Failed to allocate string of length ".data) ++ Nat.toDigits 10 len

/-- safe_strdup (hello.c lines 69-81).  `ok` is the allocation oracle for
the single malloc call; on a null argument it returns null without
touching the channel, on allocation failure it sets the channel. -/
def safe_strdup (ok : Bool) (str : Option (List Char)) (ch : ErrorChannel) :
    Option (List Char) × ErrorChannel :=
  match str with
  | none => (none, ch)
  | some s =>
    if ok then (some s, ch)
    else (none, hello_set_error (allocStringMsg s.length) ch)

/-- toupper from ctype.h in the default C locale: uppercase ASCII letters
only. -/
def c_toupper (c : Char) : Char :=
  if 'a' ≤ c ∧ c ≤ 'z' then Char.ofNat (c.toNat - 32) else c

/-- str_to_upper (hello.c lines 86-91): uppercase every character of the
string in place. -/
def str_to_upper (s : List Char) : List Char :=
  s.map c_toupper

/-- The message "Name too long (%zu chars, max %d)" rendered for a given
length (hello.c lines 109-110). -/
def nameTooLongMsg (len : Nat) : List Char :=
  ("Name too long (".data) ++ Nat.toDigits 10 len ++
  (" chars, max ".data) ++ Nat.toDigits 10 (MAX_NAME_LENGTH - 1) ++ (")".data)

/-- validate_name (hello.c lines 96-115).  Returns whether the name is
valid, together with the channel after any set_error call. -/
def validate_name (name : Option (List Char)) (ch : ErrorChannel) :
    Bool × ErrorChannel :=
  match name with
  | none => (false, hello_set_error ("Name cannot be NULL".data) ch)
  | some s =>
    if s.length = 0 then
      (false, hello_set_error ("Name cannot be empty".data) ch)
    else if s.length ≥ MAX_NAME_LENGTH then
      (false, hello_set_error (nameTooLongMsg s.length) ch)
    else (true, ch)

/-- hello_greeter_create (hello.c lines 121-161).  `a1` is the oracle for
the calloc of the greeter, `a2` for the strdup of the name, `a3` for the
strdup of the greeting; `config = none` is a null config pointer. -/
def hello_greeter_create (a1 a2 a3 : Bool) (config : Option Hello_GreeterConfig)
    (ch : ErrorChannel) : Option Hello_Greeter × ErrorChannel :=
  let cfg := config.getD HELLO_GREETER_CONFIG_DEFAULT
  let name := cfg.name.getD ("World".data)
  let greeting := cfg.greeting.getD ("Hello".data)
  let v := validate_name (some name) ch
  if ¬ v.1 then (none, v.2)
  else if ¬ a1 then
    (none, hello_set_error ("Failed to allocate Hello_Greeter".data) v.2)
  else
    let d1 := safe_strdup a2 (some name) v.2
    match d1.1 with
    | none => (none, d1.2)
    | some n =>
      let d2 := safe_strdup a3 (some greeting) d1.2
      match d2.1 with
      | none => (none, d2.2)
      | some g => (some ⟨n, g, cfg.uppercase⟩, d2.2)

/-- hello_greeter_destroy (hello.c lines 163-169): frees the owned
strings; it never touches the error channel. -/
def hello_greeter_destroy (_greeter : Option Hello_Greeter) (ch : ErrorChannel) :
    ErrorChannel :=
  ch

/-- The full (unrestricted) rendering "{greeting}, {name}!" that snprintf
would produce with unlimited capacity (hello.c line 189). -/
def renderFull (g : Hello_Greeter) : List Char :=
  g.greeting ++ [',', ' '] ++ g.name ++ ['!']

/-- The message "Buffer too small (need %d, have %zu)" rendered for the
required size (terminator included) and the capacity (hello.c lines
198-199). -/
def bufferTooSmallMsg (need cap : Nat) : List Char :=
  ("Buffer too small (need ".data) ++ Nat.toDigits 10 need ++
  (", have ".data) ++ Nat.toDigits 10 cap ++ (")".data)

/-- hello_greeter_greet (hello.c lines 175-209).  `buffer_ok` is whether
the buffer pointer is non-null; the result is the returned int, the C
string left in the buffer (`none` when the buffer was not written), and
the channel.  snprintf with size `buffer_size` stores at most
`buffer_size - 1` characters plus the terminator and returns the full
required length; on these arguments it cannot fail, so the `written < 0`
branch is unreachable. -/
def hello_greeter_greet (greeter : Option Hello_Greeter) (buffer_ok : Bool)
    (buffer_size : Nat) (ch : ErrorChannel) :
    Int × Option (List Char) × ErrorChannel :=
  match greeter with
  | none => (-1, none, hello_set_error ("greeter is NULL".data) ch)
  | some g =>
    if ¬ buffer_ok ∨ buffer_size = 0 then
      (-1, none, hello_set_error ("Invalid output buffer".data) ch)
    else
      let full := renderFull g
      let written := full.length
      let content := full.take (buffer_size - 1)
      let ch1 :=
        if written ≥ buffer_size then
          hello_set_error (bufferTooSmallMsg (written + 1) buffer_size) ch
        else ch
      let content1 := if g.uppercase then str_to_upper content else content
      (Int.ofNat written, some content1, ch1)

/-- hello_greeter_get_name (hello.c lines 211-217). -/
def hello_greeter_get_name (greeter : Option Hello_Greeter) (ch : ErrorChannel) :
    Option (List Char) × ErrorChannel :=
  match greeter with
  | none => (none, hello_set_error ("greeter is NULL".data) ch)
  | some g => (some g.name, ch)

/-- hello_greeter_set_name (hello.c lines 219-238).  `a` is the oracle
for the strdup of the new name; the second component is the greeter
after the call. -/
def hello_greeter_set_name (a : Bool) (greeter : Option Hello_Greeter)
    (name : Option (List Char)) (ch : ErrorChannel) :
    Bool × Option Hello_Greeter × ErrorChannel :=
  match greeter with
  | none => (false, none, hello_set_error ("greeter is NULL".data) ch)
  | some g =>
    let v := validate_name name ch
    if ¬ v.1 then (false, some g, v.2)
    else
      let d := safe_strdup a name v.2
      match d.1 with
      | none => (false, some g, d.2)
      | some n => (true, some { g with name := n }, d.2)

/-- hello_get_version (hello.c lines 244-246). -/
def hello_get_version : List Char := "1.0.0".data

/-- The liveness invariant on a greeter's name: non-empty and strictly
shorter than MAX_NAME_LENGTH (spec section 3). -/
def GreeterInv (g : Hello_Greeter) : Prop :=
  0 < g.name.length ∧ g.name.length < MAX_NAME_LENGTH

instance (g : Hello_Greeter) : Decidable (GreeterInv g) := by
  unfold GreeterInv; infer_instance

/-! Helper lemmas characterizing the operations. -/

/-- validate_name on a non-null name: the two rejection branches and the
success branch, with the channel only touched on rejection. -/
theorem validate_name_some_eq (s : List Char) (ch : ErrorChannel) :
    validate_name (some s) ch =
      if s.length = 0 then
        (false, hello_set_error ("Name cannot be empty".data) ch)
      else if MAX_NAME_LENGTH ≤ s.length then
        (false, hello_set_error (nameTooLongMsg s.length) ch)
      else (true, ch) := rfl

/-- validate_name accepts a name that satisfies the invariant bounds and
leaves the channel unchanged. -/
theorem validate_name_valid (s : List Char) (ch : ErrorChannel)
    (h1 : 0 < s.length) (h2 : s.length < MAX_NAME_LENGTH) :
    validate_name (some s) ch = (true, ch) := by
  rw [validate_name_some_eq, if_neg (by omega), if_neg (by omega)]

/-- hello_greeter_create on a fully explicit valid configuration with all
allocations succeeding returns the copied greeter and leaves the channel
unchanged. -/
theorem create_valid_eq (nm gr : List Char) (up : Bool) (ch : ErrorChannel)
    (h1 : 0 < nm.length) (h2 : nm.length < MAX_NAME_LENGTH) :
    hello_greeter_create true true true (some ⟨some nm, some gr, up⟩) ch =
      (some ⟨nm, gr, up⟩, ch) := by
  unfold hello_greeter_create
  simp [validate_name_valid _ _ h1 h2, safe_strdup]

/-- hello_greeter_greet on a non-null greeter and a valid buffer:
the return value is always the full rendered length, the buffer holds the
(possibly uppercased) rendering truncated to capacity minus the
terminator, and the channel is set exactly when the capacity does not
exceed the full length. -/
theorem greet_valid_eq (g : Hello_Greeter) (c : Nat) (ch : ErrorChannel)
    (h1 : 0 < c) :
    hello_greeter_greet (some g) true c ch =
      (Int.ofNat (renderFull g).length,
       some (if g.uppercase then str_to_upper ((renderFull g).take (c - 1))
             else (renderFull g).take (c - 1)),
       if c ≤ (renderFull g).length then
         hello_set_error (bufferTooSmallMsg ((renderFull g).length + 1) c) ch
       else ch) := by
  have hc : ¬ (¬ true = true ∨ c = 0) := by
    simp [Nat.pos_iff_ne_zero.mp h1]
  unfold hello_greeter_greet
  dsimp only
  rw [if_neg hc]

/-- Uppercasing a truncated string equals truncating the uppercased
string: the buffer after greet is always a prefix of the (possibly
uppercased) full rendering. -/
theorem str_to_upper_take (l : List Char) (n : Nat) :
    str_to_upper (l.take n) = (str_to_upper l).take n := by
  simp [str_to_upper, List.map_take]

/-- hello_greeter_set_name on a non-null greeter and non-null name:
the two rejection branches, the allocation-failure branch, and the
success branch. -/
theorem set_name_some_eq (a : Bool) (g : Hello_Greeter) (n : List Char)
    (ch : ErrorChannel) :
    hello_greeter_set_name a (some g) (some n) ch =
      if n.length = 0 then
        (false, some g, hello_set_error ("Name cannot be empty".data) ch)
      else if MAX_NAME_LENGTH ≤ n.length then
        (false, some g, hello_set_error (nameTooLongMsg n.length) ch)
      else if a then (true, some { g with name := n }, ch)
      else (false, some g, hello_set_error (allocStringMsg n.length) ch) := by
  by_cases h0 : n.length = 0
  · simp [hello_greeter_set_name, validate_name, h0]
  · by_cases hlong : MAX_NAME_LENGTH ≤ n.length
    · simp [hello_greeter_set_name, validate_name, h0, hlong, ge_iff_le]
    · cases a <;>
        simp [hello_greeter_set_name, validate_name, safe_strdup, h0, hlong,
          ge_iff_le]

/-! Claim theorems. -/

/-- C7: from any channel state, clear_error yields has_error false and an
empty last-error string; get_last_error returns the stored message when
has_error is true and the empty string when it is false; has_error and
get_last_error are pure reads of the channel. -/
theorem C7_clear_and_read (ch : ErrorChannel) :
    hello_has_error (hello_clear_error ch) = false ∧
    hello_get_last_error (hello_clear_error ch) = [] ∧
    hello_get_last_error ch = (if ch.has_error then ch.message else []) ∧
    hello_has_error ch = ch.has_error := by
  unfold hello_has_error hello_get_last_error hello_clear_error
  simp

/-- C9: for every greeter and every valid buffer of any positive
capacity, greet returns length(greeting) + length(name) + 3, independent
of the capacity. -/
theorem C9_return_is_full_length (g : Hello_Greeter) (c : Nat)
    (ch : ErrorChannel) (hc : 0 < c) :
    (hello_greeter_greet (some g) true c ch).1 =
      Int.ofNat (g.greeting.length + g.name.length + 3) := by
  rw [greet_valid_eq g c ch hc]
  show Int.ofNat (renderFull g).length = _
  have h : (renderFull g).length = g.greeting.length + g.name.length + 3 := by
    simp [renderFull]
    omega
  rw [h]

/-- C9 witness at the default greeter and capacity 7. -/
theorem C9_return_is_full_length_witness :
    0 < 7 ∧
    (hello_greeter_greet (some ⟨"World".data, "Hello".data, false⟩) true 7
        initChannel).1 =
      Int.ofNat (("Hello".data).length + ("World".data).length + 3) :=
  ⟨by decide,
   C9_return_is_full_length ⟨"World".data, "Hello".data, false⟩ 7 initChannel
     (by decide)⟩

/-- C1: for every greeter and every non-null buffer with capacity c where
0 < c and c is at most the full rendered length, greet returns the full
untruncated required length (non-negative, not -1), the buffer holds a
truncated terminated prefix of the rendering, and the channel is set with
the shortfall message. -/
theorem C1_truncation_reports_size (g : Hello_Greeter) (c : Nat)
    (ch : ErrorChannel) (h1 : 0 < c) (h2 : c ≤ (renderFull g).length) :
    (hello_greeter_greet (some g) true c ch).1 =
      Int.ofNat (renderFull g).length ∧
    0 ≤ (hello_greeter_greet (some g) true c ch).1 ∧
    (hello_greeter_greet (some g) true c ch).1 ≠ -1 ∧
    (hello_greeter_greet (some g) true c ch).2.1 =
      some ((if g.uppercase then str_to_upper (renderFull g)
             else renderFull g).take (c - 1)) ∧
    (hello_greeter_greet (some g) true c ch).2.2 =
      hello_set_error (bufferTooSmallMsg ((renderFull g).length + 1) c) ch ∧
    ((hello_greeter_greet (some g) true c ch).2.2).has_error = true := by
  rw [greet_valid_eq g c ch h1, if_pos h2]
  refine ⟨rfl, ?_, ?_, ?_, rfl, rfl⟩
  · show (0 : Int) ≤ (((renderFull g).length : Nat) : Int)
    omega
  · show (((renderFull g).length : Nat) : Int) ≠ -1
    omega
  · show some _ = some _
    cases hu : g.uppercase <;> simp [str_to_upper_take]

/-- C1 witness: the default greeter into a 5-byte buffer. -/
theorem C1_truncation_reports_size_witness :
    0 < 5 ∧
    5 ≤ (renderFull ⟨"World".data, "Hello".data, false⟩).length ∧
    ((hello_greeter_greet (some ⟨"World".data, "Hello".data, false⟩) true 5
        initChannel).2.2).has_error = true :=
  ⟨by decide, by decide,
   (C1_truncation_reports_size ⟨"World".data, "Hello".data, false⟩ 5
      initChannel (by decide) (by decide)).2.2.2.2.2⟩

/-- C5: for every greeter with uppercase set and every valid buffer,
greet produces the uppercased transform of what the non-uppercase greeter
would produce, with identical return value and channel effect, in the
truncated case as well as the full case; with the default name and
greeting and uppercase the buffer holds "HELLO, WORLD!". -/
theorem C5_uppercase_in_place (nm gr : List Char) (c : Nat)
    (ch : ErrorChannel) (h1 : 0 < c) :
    (hello_greeter_greet (some ⟨nm, gr, true⟩) true c ch).1 =
      (hello_greeter_greet (some ⟨nm, gr, false⟩) true c ch).1 ∧
    (hello_greeter_greet (some ⟨nm, gr, true⟩) true c ch).2.1 =
      Option.map str_to_upper
        ((hello_greeter_greet (some ⟨nm, gr, false⟩) true c ch).2.1) ∧
    (hello_greeter_greet (some ⟨nm, gr, true⟩) true c ch).2.2 =
      (hello_greeter_greet (some ⟨nm, gr, false⟩) true c ch).2.2 ∧
    (13 < c →
      (hello_greeter_greet (some ⟨"World".data, "Hello".data, true⟩) true c
          ch).2.1 =
        some ("HELLO, WORLD!".data)) := by
  rw [greet_valid_eq ⟨nm, gr, true⟩ c ch h1,
      greet_valid_eq ⟨nm, gr, false⟩ c ch h1]
  refine ⟨rfl, by simp [renderFull], rfl, ?_⟩
  intro h13
  rw [greet_valid_eq ⟨"World".data, "Hello".data, true⟩ c ch h1]
  show some _ = some _
  have hfull : (renderFull ⟨"World".data, "Hello".data, true⟩).take (c - 1) =
      renderFull ⟨"World".data, "Hello".data, true⟩ := by
    apply List.take_of_length_le
    have : (renderFull ⟨"World".data, "Hello".data, true⟩).length = 13 := by
      decide
    omega
  rw [if_pos rfl, hfull]
  decide

/-- C5 witness at the default strings and capacity 5 (truncated case)
together with the full case at capacity 128. -/
theorem C5_uppercase_in_place_witness :
    0 < 5 ∧
    (hello_greeter_greet (some ⟨"World".data, "Hello".data, true⟩) true 5
        initChannel).2.1 =
      Option.map str_to_upper
        ((hello_greeter_greet (some ⟨"World".data, "Hello".data, false⟩) true 5
            initChannel).2.1) ∧
    (hello_greeter_greet (some ⟨"World".data, "Hello".data, true⟩) true 128
        initChannel).2.1 = some ("HELLO, WORLD!".data) :=
  ⟨by decide,
   (C5_uppercase_in_place ("World".data) ("Hello".data) 5 initChannel
      (by decide)).2.1,
   (C5_uppercase_in_place ("World".data) ("Hello".data) 128 initChannel
      (by decide)).2.2.2 (by decide)⟩

/-- C4: create applies the defaults name "World", greeting "Hello",
uppercase false field-by-field when the configuration or one of its
fields is absent; greet on a default greeter into a sufficiently large
buffer writes exactly "Hello, World!" and returns 13; with name "Test"
and greeting "Hi" it writes "Hi, Test!". -/
theorem C4_defaults (gr : Option (List Char)) (up : Bool) (c : Nat)
    (ch : ErrorChannel) (hc : 13 < c) :
    hello_greeter_create true true true none ch =
      (some ⟨"World".data, "Hello".data, false⟩, ch) ∧
    (hello_greeter_create true true true (some ⟨none, gr, up⟩) ch).1 =
      some ⟨"World".data, gr.getD ("Hello".data), up⟩ ∧
    (hello_greeter_create true true true
        (some ⟨some ("Test".data), none, up⟩) ch).1 =
      some ⟨"Test".data, "Hello".data, up⟩ ∧
    hello_greeter_greet (some ⟨"World".data, "Hello".data, false⟩) true c ch =
      (13, some ("Hello, World!".data), ch) ∧
    (hello_greeter_greet (some ⟨"Test".data, "Hi".data, false⟩) true c
        ch).1 = 9 ∧
    (hello_greeter_greet (some ⟨"Test".data, "Hi".data, false⟩) true c
        ch).2.1 = some ("Hi, Test!".data) := by
  have hWorld : validate_name (some ("World".data)) ch = (true, ch) :=
    validate_name_valid _ _ (by decide) (by decide)
  have hTest : validate_name (some ("Test".data)) ch = (true, ch) :=
    validate_name_valid _ _ (by decide) (by decide)
  refine ⟨?_, ?_, ?_, ?_, ?_, ?_⟩
  · unfold hello_greeter_create
    simp [HELLO_GREETER_CONFIG_DEFAULT, hWorld, safe_strdup]
  · unfold hello_greeter_create
    simp [hWorld, safe_strdup]
  · unfold hello_greeter_create
    simp [hTest, safe_strdup]
  · have hlen : (renderFull ⟨"World".data, "Hello".data, false⟩).length = 13 :=
      by decide
    rw [greet_valid_eq _ c ch (by omega)]
    have hnot : ¬ c ≤ (renderFull ⟨"World".data, "Hello".data, false⟩).length :=
      by omega
    have hle : (renderFull ⟨"World".data, "Hello".data, false⟩).length ≤ c - 1 :=
      by omega
    rw [if_neg hnot, List.take_of_length_le hle, hlen]
    exact congrArg (fun l => ((13 : Int), some l, ch)) (by decide)
  · rw [greet_valid_eq _ c ch (by omega)]
    show Int.ofNat (renderFull ⟨"Test".data, "Hi".data, false⟩).length = 9
    decide
  · have hlen : (renderFull ⟨"Test".data, "Hi".data, false⟩).length = 9 :=
      by decide
    rw [greet_valid_eq _ c ch (by omega)]
    have hle : (renderFull ⟨"Test".data, "Hi".data, false⟩).length ≤ c - 1 :=
      by omega
    show some _ = some _
    rw [List.take_of_length_le hle]
    decide

/-- C4 witness at capacity 128 with an absent greeting field. -/
theorem C4_defaults_witness :
    13 < 128 ∧
    hello_greeter_create true true true none initChannel =
      (some ⟨"World".data, "Hello".data, false⟩, initChannel) ∧
    hello_greeter_greet (some ⟨"World".data, "Hello".data, false⟩) true 128
        initChannel =
      (13, some ("Hello, World!".data), initChannel) :=
  ⟨by decide,
   (C4_defaults none false 128 initChannel (by decide)).1,
   (C4_defaults none false 128 initChannel (by decide)).2.2.2.1⟩

/-- C8: create enforces no length bound on the greeting: any greeting of
any length paired with a valid name is accepted in full, stored without
truncation, with the channel untouched. -/
theorem C8_greeting_unbounded (nm gr : List Char) (up : Bool)
    (ch : ErrorChannel) (h1 : 0 < nm.length)
    (h2 : nm.length < MAX_NAME_LENGTH) :
    hello_greeter_create true true true (some ⟨some nm, some gr, up⟩) ch =
      (some ⟨nm, gr, up⟩, ch) :=
  create_valid_eq nm gr up ch h1 h2

/-- C8 witness: a 100-character greeting, longer than the unused
MAX_GREETING_LENGTH constant, is stored in full. -/
theorem C8_greeting_unbounded_witness :
    0 < ("Bob".data).length ∧
    ("Bob".data).length < MAX_NAME_LENGTH ∧
    MAX_GREETING_LENGTH < (List.replicate 100 'g').length ∧
    hello_greeter_create true true true
        (some ⟨some ("Bob".data), some (List.replicate 100 'g'), false⟩)
        initChannel =
      (some ⟨"Bob".data, List.replicate 100 'g', false⟩, initChannel) :=
  ⟨by decide, by decide, by decide,
   C8_greeting_unbounded ("Bob".data) (List.replicate 100 'g') false
     initChannel (by decide) (by decide)⟩

/-- C3: set_name is atomic: on any failure it returns false, sets the
channel, and the previous name remains observable unchanged via
get_name; on success the owned name is replaced with the new copy. -/
theorem C3_set_name_atomic (g : Hello_Greeter) (name : Option (List Char))
    (a : Bool) (ch : ErrorChannel) :
    ((hello_greeter_set_name a (some g) name ch).1 = false →
      (hello_greeter_set_name a (some g) name ch).2.1 = some g ∧
      ((hello_greeter_set_name a (some g) name ch).2.2).has_error = true ∧
      hello_greeter_get_name ((hello_greeter_set_name a (some g) name ch).2.1)
          ((hello_greeter_set_name a (some g) name ch).2.2) =
        (some g.name, (hello_greeter_set_name a (some g) name ch).2.2)) ∧
    ((hello_greeter_set_name a (some g) name ch).1 = true →
      ∃ n, name = some n ∧
        (hello_greeter_set_name a (some g) name ch).2.1 =
          some { g with name := n }) := by
  cases name with
  | none =>
    simp [hello_greeter_set_name, validate_name, hello_set_error,
      hello_greeter_get_name]
  | some n =>
    rw [set_name_some_eq]
    split_ifs with h0 hl ha
    · simp [hello_set_error, hello_greeter_get_name]
    · simp [hello_set_error, hello_greeter_get_name]
    · exact ⟨by simp, fun _ => ⟨n, rfl, rfl⟩⟩
    · simp [hello_set_error, hello_greeter_get_name]

/-- C3 witness: a rejected empty name leaves the default greeter's name
in place, and a successful rename replaces it. -/
theorem C3_set_name_atomic_witness :
    (hello_greeter_set_name true (some ⟨"World".data, "Hello".data, false⟩)
        (some []) initChannel).2.1 =
      some ⟨"World".data, "Hello".data, false⟩ ∧
    (hello_greeter_set_name true (some ⟨"World".data, "Hello".data, false⟩)
        (some ("Ann".data)) initChannel).2.1 =
      some ⟨"Ann".data, "Hello".data, false⟩ :=
  ⟨((C3_set_name_atomic ⟨"World".data, "Hello".data, false⟩ (some []) true
      initChannel).1 (by decide)).1,
   by
    rcases (C3_set_name_atomic ⟨"World".data, "Hello".data, false⟩
        (some ("Ann".data)) true initChannel).2 (by decide) with ⟨n, hn, hres⟩
    rw [hres]
    cases hn
    rfl⟩

/-- C6: the name invariant (non-empty, length below 256) holds for every
greeter returned by create, and set_name preserves it on success and on
failure; greet and get_name take the greeter as read-only and cannot
change it. -/
theorem C6_name_invariant (cfg : Option Hello_GreeterConfig)
    (a1 a2 a3 a : Bool) (g : Hello_Greeter) (name : Option (List Char))
    (ch : ErrorChannel) (hg : GreeterInv g) :
    (∀ g2, (hello_greeter_create a1 a2 a3 cfg ch).1 = some g2 →
      GreeterInv g2) ∧
    (∀ g2, (hello_greeter_set_name a (some g) name ch).2.1 = some g2 →
      GreeterInv g2) := by
  constructor
  · intro g2 hcr
    unfold hello_greeter_create at hcr
    dsimp only at hcr
    rw [validate_name_some_eq] at hcr
    set nmv := (cfg.getD HELLO_GREETER_CONFIG_DEFAULT).name.getD ("World".data)
      with hnmv
    by_cases h0 : nmv.length = 0
    · simp [h0] at hcr
    · by_cases hl : MAX_NAME_LENGTH ≤ nmv.length
      · simp [h0, hl] at hcr
      · cases a1 with
        | false => simp [h0, hl] at hcr
        | true =>
          cases a2 with
          | false => simp [h0, hl, safe_strdup] at hcr
          | true =>
            cases a3 with
            | false => simp [h0, hl, safe_strdup] at hcr
            | true =>
              simp [h0, hl, safe_strdup] at hcr
              rcases hcr with rfl
              simp only [MAX_NAME_LENGTH] at hl
              exact ⟨Nat.pos_of_ne_zero h0, by simp [GreeterInv, MAX_NAME_LENGTH]; omega⟩
  · intro g2 hset
    cases name with
    | none =>
      simp [hello_greeter_set_name, validate_name] at hset
      rcases hset with rfl
      exact hg
    | some n =>
      rw [set_name_some_eq] at hset
      split_ifs at hset with h0 hl ha
      · simp at hset; rcases hset with rfl; exact hg
      · simp at hset; rcases hset with rfl; exact hg
      · simp at hset; rcases hset with rfl
        exact ⟨Nat.pos_of_ne_zero h0, not_le.mp hl⟩
      · simp at hset; rcases hset with rfl; exact hg

/-- C6 witness: create establishes the invariant on the default greeter
and a successful set_name re-establishes it. -/
theorem C6_name_invariant_witness :
    GreeterInv ⟨"World".data, "Hello".data, false⟩ ∧
    GreeterInv ⟨"Ann".data, "Hello".data, false⟩ :=
  ⟨by decide,
   (C6_name_invariant none true true true true
      ⟨"World".data, "Hello".data, false⟩
      (some ("Ann".data)) initChannel (by decide)).2
     ⟨"Ann".data, "Hello".data, false⟩ (by decide)⟩

/-- C10: successful operations never modify the Error Channel: a create
with valid inputs and successful allocations, a set_name that returns
true, a get_name on a non-null greeter, a destroy of any handle, and a
greet whose required length is strictly below the capacity all leave the
channel exactly as it was. -/
theorem C10_success_frame (nm gr n : List Char) (up a : Bool)
    (g : Hello_Greeter) (anyg : Option Hello_Greeter) (c : Nat)
    (ch : ErrorChannel) (h1 : 0 < nm.length)
    (h2 : nm.length < MAX_NAME_LENGTH)
    (hc : (renderFull g).length < c) :
    (hello_greeter_create true true true (some ⟨some nm, some gr, up⟩)
        ch).2 = ch ∧
    ((hello_greeter_set_name a (some g) (some n) ch).1 = true →
      (hello_greeter_set_name a (some g) (some n) ch).2.2 = ch) ∧
    (hello_greeter_get_name (some g) ch).2 = ch ∧
    hello_greeter_destroy anyg ch = ch ∧
    (hello_greeter_greet (some g) true c ch).2.2 = ch := by
  refine ⟨?_, ?_, rfl, rfl, ?_⟩
  · rw [create_valid_eq nm gr up ch h1 h2]
  · rw [set_name_some_eq]
    split_ifs <;> simp
  · rw [greet_valid_eq g c ch (by omega)]
    show (if c ≤ (renderFull g).length then _ else ch) = ch
    exact if_neg (by omega)

/-- C10 witness: a valid create and an uncramped greet at capacity 128
leave the empty channel empty. -/
theorem C10_success_frame_witness :
    0 < ("Bob".data).length ∧
    (hello_greeter_greet (some ⟨"World".data, "Hello".data, false⟩) true 128
        initChannel).2.2 = initChannel :=
  ⟨by decide,
   (C10_success_frame ("Bob".data) ("Hi".data) ("Ann".data) false true
      ⟨"World".data, "Hello".data, false⟩ none 128 initChannel (by decide)
      (by decide) (by decide)).2.2.2.2⟩

/-- C2 counterexample: the claim counts a null name given to create as a
validation error that returns a null handle and sets the channel; in the
code a null name in the configuration selects the default "World", the
create succeeds, and the channel is untouched. -/
theorem C2_null_name_counterexample :
    hello_greeter_create true true true
        (some ⟨none, some ("Hi".data), false⟩) initChannel =
      (some ⟨"World".data, "Hi".data, false⟩, initChannel) := by
  decide

/-- C2 (amended): every validation error — create given an empty or
over-length name, set_name given a null, empty, or over-length name,
greet, get_name or set_name given a null greeter handle, or greet given
a null buffer or zero capacity — is detected synchronously, sets the
channel, and makes the operation return its sentinel with no other side
effect on the greeter; a null name given to create selects the default
name instead of failing. -/
theorem C2_validation_errors (g : Hello_Greeter) (cfg : Hello_GreeterConfig)
    (n : List Char) (a1 a2 a3 a b : Bool) (c : Nat) (ch : ErrorChannel)
    (hbad : cfg.name = some [] ∨
      ∃ s, cfg.name = some s ∧ MAX_NAME_LENGTH ≤ s.length)
    (hnbad : n = [] ∨ MAX_NAME_LENGTH ≤ n.length) :
    ((hello_greeter_create a1 a2 a3 (some cfg) ch).1 = none ∧
     ((hello_greeter_create a1 a2 a3 (some cfg) ch).2).has_error = true) ∧
    hello_greeter_set_name a (some g) none ch =
      (false, some g, hello_set_error ("Name cannot be NULL".data) ch) ∧
    ((hello_greeter_set_name a (some g) (some n) ch).1 = false ∧
     (hello_greeter_set_name a (some g) (some n) ch).2.1 = some g ∧
     ((hello_greeter_set_name a (some g) (some n) ch).2.2).has_error =
       true) ∧
    hello_greeter_greet none b c ch =
      (-1, none, hello_set_error ("greeter is NULL".data) ch) ∧
    hello_greeter_get_name none ch =
      (none, hello_set_error ("greeter is NULL".data) ch) ∧
    hello_greeter_set_name a none (some n) ch =
      (false, none, hello_set_error ("greeter is NULL".data) ch) ∧
    hello_greeter_greet (some g) false c ch =
      (-1, none, hello_set_error ("Invalid output buffer".data) ch) ∧
    hello_greeter_greet (some g) true 0 ch =
      (-1, none, hello_set_error ("Invalid output buffer".data) ch) := by
  refine ⟨?_, rfl, ?_, rfl, rfl, rfl, rfl, rfl⟩
  · rcases hbad with h | ⟨s, hs, hl⟩
    · simp [hello_greeter_create, h, validate_name_some_eq, hello_set_error]
    · have h0 : ¬ s.length = 0 := by
        have h := hl
        simp [MAX_NAME_LENGTH] at h
        omega
      simp [hello_greeter_create, hs, validate_name_some_eq, h0, hl,
        hello_set_error]
  · rcases hnbad with h | hl
    · subst h
      rw [set_name_some_eq]
      simp [hello_set_error]
    · have h0 : ¬ n.length = 0 := by
        have h := hl
        simp [MAX_NAME_LENGTH] at h
        omega
      rw [set_name_some_eq]
      simp [h0, hl, hello_set_error]

/-- C2 witness: the amended statement instantiated at an empty name in
the configuration, an empty set_name argument, and a zero-capacity
greet. -/
theorem C2_validation_errors_witness :
    (hello_greeter_create true true true (some ⟨some [], none, false⟩)
        initChannel).1 = none ∧
    hello_greeter_greet (some ⟨"World".data, "Hello".data, false⟩) true 0
        initChannel =
      (-1, none,
       hello_set_error ("Invalid output buffer".data) initChannel) :=
  ⟨((C2_validation_errors ⟨"World".data, "Hello".data, false⟩
      ⟨some [], none, false⟩ [] true true true true true 1 initChannel
      (Or.inl rfl) (Or.inl rfl)).1).1,
   (C2_validation_errors ⟨"World".data, "Hello".data, false⟩
      ⟨some [], none, false⟩ [] true true true true true 1 initChannel
      (Or.inl rfl) (Or.inl rfl)).2.2.2.2.2.2.2⟩

end Hello
